import Mathlib

/-!
Shallow embedding of the PharmaFirst triage core:
the UTI triage state machine (src/lib/triage/stateMachine.ts) and the
UTI escalation assessment (the UTI triage worker, `assessUTISymptoms`).

Conventions of the embedding:
- TypeScript string-literal unions become Lean inductives.
- `TriageEvent.data` is duck-typed (`any`) in the source; every field the
  state machine ever reads from it (`patientId`, `name`, `dob`, `symptom`,
  `redFlag`, `option`, `previousState`) is modelled as an `Option` field,
  `none` standing for `undefined`/absent.
- `context.symptoms.push(event.data?.symptom)` can push `undefined` at
  runtime, so `symptoms` and `redFlags` are `List (Option String)`.
- The mutation of `this.context` becomes a pure function
  `processEvent : TriageContext → TriageEvent → TriageContext` returning
  the updated context (the source also returns `newState`, which is the
  `state` field of that context).
-/

/-- The `TriageState` string-literal union of stateMachine.ts. -/
inductive TriageState where
  | INITIAL
  | IDENTITY_VERIFICATION
  | SYMPTOM_ASSESSMENT
  | RED_FLAG_CHECK
  | FOLLOW_UP_SELECTION
  | DELIVERY_OPTIONS
  | CONFIRMATION
  | ESCALATED
  | COMPLETED
deriving DecidableEq, Repr

/-- The fields of `event.data` that `processEvent` reads; `none` models an
absent (`undefined`) field of the duck-typed payload. `previousState` models
the `previousState as TriageState` cast, with `none` for the falsy case. -/
structure EventData where
  patientId : Option String := none
  name : Option String := none
  dob : Option String := none
  symptom : Option String := none
  redFlag : Option String := none
  option : Option String := none
  previousState : Option TriageState := none
deriving DecidableEq, Repr

/-- `TriageEvent` of stateMachine.ts: a string tag plus duck-typed data. -/
structure TriageEvent where
  type : String
  data : EventData := {}
deriving DecidableEq, Repr

/-- `TriageContext` of stateMachine.ts. `metadata: Record<string, any>` is
modelled as an association list of string keys; no claim inspects its values,
only whether it changes. -/
structure TriageContext where
  state : TriageState
  patientId : Option String := none
  patientName : Option String := none
  patientDOB : Option String := none
  symptoms : List (Option String) := []
  redFlags : List (Option String) := []
  followUpOption : Option String := none
  deliveryOption : Option String := none
  language : Option String := none
  metadata : List (String × String) := []
deriving DecidableEq, Repr

/-- The constructor's default context (no `initialContext` overrides). -/
def initialTriageContext : TriageContext :=
  { state := .INITIAL, symptoms := [], redFlags := [], metadata := [] }

/-- `UTITriageStateMachine.processEvent`, translated case by case from the
`switch (currentState)` in stateMachine.ts lines 59-144. -/
def processEvent (ctx : TriageContext) (event : TriageEvent) : TriageContext :=
  match ctx.state with
  | .INITIAL =>
      if event.type = "START_TRIAGE" then
        { ctx with state := .IDENTITY_VERIFICATION }
      else ctx
  | .IDENTITY_VERIFICATION =>
      if event.type = "IDENTITY_VERIFIED" then
        { ctx with
            patientId := event.data.patientId,
            patientName := event.data.name,
            patientDOB := event.data.dob,
            state := .SYMPTOM_ASSESSMENT }
      else if event.type = "IDENTITY_FAILED" then
        { ctx with state := .IDENTITY_VERIFICATION }
      else ctx
  | .SYMPTOM_ASSESSMENT =>
      if event.type = "SYMPTOM_RECORDED" then
        { ctx with symptoms := ctx.symptoms ++ [event.data.symptom] }
      else if event.type = "SYMPTOMS_COMPLETE" then
        { ctx with state := .RED_FLAG_CHECK }
      else ctx
  | .RED_FLAG_CHECK =>
      if event.type = "RED_FLAG_DETECTED" then
        { ctx with
            redFlags := ctx.redFlags ++ [event.data.redFlag],
            state := .ESCALATED }
      else if event.type = "NO_RED_FLAGS" then
        { ctx with state := .FOLLOW_UP_SELECTION }
      else ctx
  | .FOLLOW_UP_SELECTION =>
      if event.type = "FOLLOW_UP_SELECTED" then
        { ctx with
            followUpOption := event.data.option,
            state :=
              if event.data.option = some "TEXT_MESSAGE" then .DELIVERY_OPTIONS
              else .CONFIRMATION }
      else ctx
  | .DELIVERY_OPTIONS =>
      if event.type = "DELIVERY_SELECTED" then
        { ctx with deliveryOption := event.data.option, state := .CONFIRMATION }
      else if event.type = "PICKUP_SELECTED" then
        { ctx with deliveryOption := some "PICKUP", state := .CONFIRMATION }
      else ctx
  | .CONFIRMATION =>
      if event.type = "CONFIRMED" then
        { ctx with state := .COMPLETED }
      else if event.type = "CHANGE_REQUESTED" then
        match event.data.previousState with
        | some target => { ctx with state := target }
        | none => ctx
      else ctx
  | .ESCALATED => ctx
  | .COMPLETED => ctx

/-- Run a whole event sequence through `processEvent`. -/
def processEvents (ctx : TriageContext) (events : List TriageEvent) : TriageContext :=
  events.foldl processEvent ctx

/-- `UTITriageStateMachine.isComplete`. -/
def isComplete (ctx : TriageContext) : Bool :=
  ctx.state == .COMPLETED || ctx.state == .ESCALATED

/-- `UTITriageStateMachine.needsPharmacistReview`. -/
def needsPharmacistReview (ctx : TriageContext) : Bool :=
  ctx.state == .ESCALATED || decide (0 < ctx.redFlags.length) || ctx.state == .CONFIRMATION

/-- `UTITriageStateMachine.getNextQuestion`: a `switch` on the current
state alone, so it is embedded as a function of the state. The `default`
branch of the `switch` returns `null`, modelled as `none`. -/
def getNextQuestion (state : TriageState) : Option String :=
  match state with
  | .IDENTITY_VERIFICATION =>
      some "To help you today, could I please have your full name and date of birth?"
  | .SYMPTOM_ASSESSMENT =>
      some "Can you tell me about your symptoms?"
  | .RED_FLAG_CHECK =>
      some "Do you have any of the following: high temperature, pain in your sides or back, nausea, or blood in your urine?"
  | .FOLLOW_UP_SELECTION =>
      some "How would you like to proceed? I can arrange a phone call from our pharmacist, an in-person consultation, or send you a text message with medication details."
  | .DELIVERY_OPTIONS =>
      some "Would you like to collect the medication from the pharmacy, or have it delivered?"
  | .CONFIRMATION =>
      some "Is there anything else I can help you with today?"
  | _ => none

/-- The (state, event type) pairs for which the `switch` in `processEvent`
has a handler — the transition table of the source. Every other pair falls
through to `break` without touching the context. -/
def listedTransition (state : TriageState) (eventType : String) : Bool :=
  match state with
  | .INITIAL => eventType == "START_TRIAGE"
  | .IDENTITY_VERIFICATION =>
      eventType == "IDENTITY_VERIFIED" || eventType == "IDENTITY_FAILED"
  | .SYMPTOM_ASSESSMENT =>
      eventType == "SYMPTOM_RECORDED" || eventType == "SYMPTOMS_COMPLETE"
  | .RED_FLAG_CHECK =>
      eventType == "RED_FLAG_DETECTED" || eventType == "NO_RED_FLAGS"
  | .FOLLOW_UP_SELECTION => eventType == "FOLLOW_UP_SELECTED"
  | .DELIVERY_OPTIONS =>
      eventType == "DELIVERY_SELECTED" || eventType == "PICKUP_SELECTED"
  | .CONFIRMATION =>
      eventType == "CONFIRMED" || eventType == "CHANGE_REQUESTED"
  | .ESCALATED => false
  | .COMPLETED => false

/-! ### UTI escalation assessment (UTI triage worker) -/

/-- The `UTISymptom.type` string-literal union. -/
inductive UTISymptomType where
  | burning_pain
  | frequency
  | cloudy_urine
  | lower_abdominal_pain
  | general_malaise
deriving DecidableEq, Repr

/-- The `UTIRedFlag.type` string-literal union. -/
inductive UTIRedFlagType where
  | high_temperature
  | kidney_pain
  | nausea_vomiting
  | blood_in_urine
  | symptoms_over_7_days
  | pregnancy
  | diabetes
  | immunocompromised
deriving DecidableEq, Repr

/-- The text of a `UTIRedFlag.type` tag, for the reasoning string. -/
def UTIRedFlagType.tag : UTIRedFlagType → String
  | .high_temperature => "high_temperature"
  | .kidney_pain => "kidney_pain"
  | .nausea_vomiting => "nausea_vomiting"
  | .blood_in_urine => "blood_in_urine"
  | .symptoms_over_7_days => "symptoms_over_7_days"
  | .pregnancy => "pregnancy"
  | .diabetes => "diabetes"
  | .immunocompromised => "immunocompromised"

/-- `severity?: 'mild' | 'moderate' | 'severe'` of `UTISymptom`. -/
inductive UTISeverity where
  | mild
  | moderate
  | severe
deriving DecidableEq, Repr

/-- `UTISymptom` of the UTI triage worker. -/
structure UTISymptom where
  type : UTISymptomType
  present : Bool
  severity : Option UTISeverity := none
  duration : Option Nat := none
deriving DecidableEq, Repr

/-- `UTIRedFlag` of the UTI triage worker. -/
structure UTIRedFlag where
  type : UTIRedFlagType
  present : Bool
deriving DecidableEq, Repr

/-- `recommendation: 'treat' | 'escalate' | 'refer'`. -/
inductive UTIRecommendation where
  | treat
  | escalate
  | refer
deriving DecidableEq, Repr

/-- `UTITriageResult` of the UTI triage worker. -/
structure UTITriageResult where
  suitableForTreatment : Bool
  redFlags : List UTIRedFlag
  symptoms : List UTISymptom
  recommendation : UTIRecommendation
  reasoning : String
deriving DecidableEq, Repr

/-- The count of main-symptom kinds present, as computed in
`assessUTISymptoms`: the four `some(...)` checks collected into a list and
filtered by `Boolean`. -/
def mainSymptomCount (symptoms : List UTISymptom) : Nat :=
  let hasBurningPain := symptoms.any fun s => s.type == .burning_pain && s.present
  let hasFrequency := symptoms.any fun s => s.type == .frequency && s.present
  let hasCloudyUrine := symptoms.any fun s => s.type == .cloudy_urine && s.present
  let hasLowerPain := symptoms.any fun s => s.type == .lower_abdominal_pain && s.present
  ([hasBurningPain, hasFrequency, hasCloudyUrine, hasLowerPain].filter id).length

/-- `assessUTISymptoms` of the UTI triage worker, lines 41-87: red flags
first, then the two-main-symptoms NHS Pharmacy First threshold. -/
def assessUTISymptoms (symptoms : List UTISymptom) (redFlags : List UTIRedFlag) :
    UTITriageResult :=
  let presentRedFlags := redFlags.filter fun rf => rf.present
  if 0 < presentRedFlags.length then
    { suitableForTreatment := false
      redFlags := presentRedFlags
      symptoms := symptoms
      recommendation := .escalate
      reasoning :=
        "Red flags detected: "
          ++ String.intercalate ", " (presentRedFlags.map fun rf => rf.type.tag)
          ++ ". Immediate pharmacist review required." }
  else
    let mainSymptoms := mainSymptomCount symptoms
    if 2 ≤ mainSymptoms then
      { suitableForTreatment := true
        redFlags := []
        symptoms := symptoms
        recommendation := .treat
        reasoning :=
          "Patient presents with " ++ toString mainSymptoms
            ++ " main UTI symptoms. Suitable for Pharmacy First treatment pending pharmacist confirmation." }
    else
      { suitableForTreatment := false
        redFlags := []
        symptoms := symptoms
        recommendation := .escalate
        reasoning := "Insufficient or unclear symptoms. Pharmacist review recommended." }

/-! ### Claims about the escalation assessment -/

/-- C1 (counterexample): the input red-flag list
`[{ pregnancy, present := false }]` is non-empty, yet with two main symptoms
present `assessUTISymptoms` recommends treat with
`suitableForTreatment = true` — the function filters on `present` before the
non-emptiness test, so a non-empty `redFlags` argument alone does not force
escalation. -/
theorem assess_nonempty_redflags_treat :
    0 < [({ type := .pregnancy, present := false } : UTIRedFlag)].length ∧
    (assessUTISymptoms
        [{ type := .burning_pain, present := true },
         { type := .frequency, present := true }]
        [{ type := .pregnancy, present := false }]).recommendation = .treat ∧
    (assessUTISymptoms
        [{ type := .burning_pain, present := true },
         { type := .frequency, present := true }]
        [{ type := .pregnancy, present := false }]).suitableForTreatment = true := by
  refine ⟨by decide, by decide, by decide⟩

/-- C1 (amended): for every input in which at least one red flag has
`present = true` (the filtered list is non-empty), `assessUTISymptoms`
returns recommendation escalate and `suitableForTreatment = false`,
regardless of the contents of `symptoms`. -/
theorem assess_present_redflag_escalates (symptoms : List UTISymptom)
    (redFlags : List UTIRedFlag)
    (h : redFlags.filter (fun rf => rf.present) ≠ []) :
    (assessUTISymptoms symptoms redFlags).recommendation = .escalate ∧
    (assessUTISymptoms symptoms redFlags).suitableForTreatment = false := by
  have hlen : 0 < (redFlags.filter fun rf => rf.present).length :=
    List.length_pos.mpr h
  unfold assessUTISymptoms
  simp [hlen]

/-- Witness for the amended C1 at a concrete present red flag. -/
theorem assess_present_redflag_escalates_witness :
    ([({ type := .pregnancy, present := true } : UTIRedFlag)].filter
        (fun rf => rf.present) ≠ []) ∧
    ((assessUTISymptoms [] [{ type := .pregnancy, present := true }]).recommendation
        = .escalate ∧
     (assessUTISymptoms [] [{ type := .pregnancy, present := true }]).suitableForTreatment
        = false) :=
  ⟨by decide,
   assess_present_redflag_escalates [] [{ type := .pregnancy, present := true }]
     (by decide)⟩

/-- C4: with no present red flag, a present-main-symptom count of at least 2
yields treat and suitable, and a count below 2 yields escalate and not
suitable. -/
theorem assess_threshold (symptoms : List UTISymptom) (redFlags : List UTIRedFlag)
    (h : redFlags.filter (fun rf => rf.present) = []) :
    (2 ≤ mainSymptomCount symptoms →
      (assessUTISymptoms symptoms redFlags).recommendation = .treat ∧
      (assessUTISymptoms symptoms redFlags).suitableForTreatment = true) ∧
    (mainSymptomCount symptoms < 2 →
      (assessUTISymptoms symptoms redFlags).recommendation = .escalate ∧
      (assessUTISymptoms symptoms redFlags).suitableForTreatment = false) := by
  unfold assessUTISymptoms
  constructor <;> intro hm
  · simp [h, hm]
  · simp [h, Nat.not_le.mpr hm, Nat.not_lt.mpr (Nat.le_of_lt hm)]

/-- Witness for C4: two present main symptoms, no red flags, gives treat;
(also instantiates the below-threshold implication vacuously). -/
theorem assess_threshold_witness :
    (([] : List UTIRedFlag).filter (fun rf => rf.present) = []) ∧
    2 ≤ mainSymptomCount
        [{ type := .burning_pain, present := true },
         { type := .cloudy_urine, present := true }] ∧
    (assessUTISymptoms
        [{ type := .burning_pain, present := true },
         { type := .cloudy_urine, present := true }] []).recommendation = .treat ∧
    (assessUTISymptoms
        [{ type := .burning_pain, present := true },
         { type := .cloudy_urine, present := true }] []).suitableForTreatment = true := by
  have h :=
    (assess_threshold
        [{ type := .burning_pain, present := true },
         { type := .cloudy_urine, present := true }] [] (by decide)).1 (by decide)
  exact ⟨by decide, by decide, h.1, h.2⟩

/-- C10: `assessUTISymptoms` never recommends refer, `suitableForTreatment`
holds exactly on the treat recommendation, and the result's `redFlags` field
is exactly the present-filtered input red flags (hence empty whenever no red
flag is present, in particular in both branches that do not escalate on red
flags). -/
theorem assess_result_shape (symptoms : List UTISymptom) (redFlags : List UTIRedFlag) :
    (assessUTISymptoms symptoms redFlags).recommendation ≠ .refer ∧
    ((assessUTISymptoms symptoms redFlags).suitableForTreatment = true ↔
      (assessUTISymptoms symptoms redFlags).recommendation = .treat) ∧
    (assessUTISymptoms symptoms redFlags).redFlags
      = redFlags.filter (fun rf => rf.present) := by
  unfold assessUTISymptoms
  by_cases h : 0 < (redFlags.filter fun rf => rf.present).length
  · simp [h]
  · have hnil : (redFlags.filter fun rf => rf.present) = [] := by
      rcases hh : redFlags.filter fun rf => rf.present with _ | ⟨a, l⟩
      · exact hh
      · rw [hh] at h; simp at h
    by_cases h2 : 2 ≤ mainSymptomCount symptoms <;> simp [h, hnil, h2]

/-! ### Claims about the state machine -/

/-- C2: once the state is ESCALATED or COMPLETED, every further event
sequence leaves the whole session context (state included) unchanged: the
`switch` has empty bodies for both terminal states. -/
theorem terminal_states_absorbing (ctx : TriageContext) (events : List TriageEvent)
    (h : ctx.state = .ESCALATED ∨ ctx.state = .COMPLETED) :
    processEvents ctx events = ctx := by
  induction events with
  | nil => rfl
  | cons e es ih =>
      have hstep : processEvent ctx e = ctx := by
        rcases h with h | h <;> simp [processEvent, h]
      simp only [processEvents, List.foldl_cons, hstep]
      exact ih

/-- Witness for C2: an escalated session ignores a CONFIRMED event. -/
theorem terminal_states_absorbing_witness :
    (({ initialTriageContext with state := .ESCALATED } : TriageContext).state
        = .ESCALATED ∨
     ({ initialTriageContext with state := .ESCALATED } : TriageContext).state
        = .COMPLETED) ∧
    processEvents { initialTriageContext with state := .ESCALATED }
        [{ type := "CONFIRMED" }]
      = { initialTriageContext with state := .ESCALATED } :=
  ⟨Or.inl rfl,
   terminal_states_absorbing { initialTriageContext with state := .ESCALATED }
     [{ type := "CONFIRMED" }] (Or.inl rfl)⟩

/-- C3 (code-bug evidence): an IDENTITY_VERIFIED event carrying no payload
(no name) is not rejected: `processEvent` stores the absent fields and moves
the state to SYMPTOM_ASSESSMENT, so the session is mutated with no
validation failure. -/
theorem identity_verified_without_name_mutates :
    processEvent { initialTriageContext with state := .IDENTITY_VERIFICATION }
        { type := "IDENTITY_VERIFIED" }
      = { initialTriageContext with state := .SYMPTOM_ASSESSMENT } ∧
    ({ initialTriageContext with state := .SYMPTOM_ASSESSMENT } : TriageContext).state
      = .SYMPTOM_ASSESSMENT := by
  constructor <;> decide

/-- C5 (counterexample): a session driven to CONFIRMATION without ever
visiting ESCALATED accepts CHANGE_REQUESTED with target ESCALATED — a
terminal, never-visited state — and lands there: the code applies the
target with no constraint. -/
theorem change_requested_unconstrained_target :
    (processEvents initialTriageContext
        [{ type := "START_TRIAGE" }, { type := "IDENTITY_VERIFIED" },
         { type := "SYMPTOMS_COMPLETE" }, { type := "NO_RED_FLAGS" },
         { type := "FOLLOW_UP_SELECTED", data := { option := some "PHONE_CALL" } }]).state
      = .CONFIRMATION ∧
    (processEvents initialTriageContext
        [{ type := "START_TRIAGE" }, { type := "IDENTITY_VERIFIED" },
         { type := "SYMPTOMS_COMPLETE" }, { type := "NO_RED_FLAGS" },
         { type := "FOLLOW_UP_SELECTED", data := { option := some "PHONE_CALL" } },
         { type := "CHANGE_REQUESTED", data := { previousState := some .ESCALATED } }]).state
      = .ESCALATED := by
  constructor <;> decide

/-- C5 (amended): in CONFIRMATION, CHANGE_REQUESTED with a present target
sets the state to exactly that target; the machine enforces no constraint on
the target, so only the caller can guarantee it is a previously-visited
non-terminal state. -/
theorem change_requested_sets_target (ctx : TriageContext) (data : EventData)
    (target : TriageState) (h : ctx.state = .CONFIRMATION)
    (ht : data.previousState = some target) :
    (processEvent ctx { type := "CHANGE_REQUESTED", data := data }).state = target := by
  simp [processEvent, h, ht]

/-- Witness for the amended C5 at a concrete session and target. -/
theorem change_requested_sets_target_witness :
    ({ initialTriageContext with state := .CONFIRMATION } : TriageContext).state
      = .CONFIRMATION ∧
    ({ previousState := some .FOLLOW_UP_SELECTION } : EventData).previousState
      = some .FOLLOW_UP_SELECTION ∧
    (processEvent { initialTriageContext with state := .CONFIRMATION }
        { type := "CHANGE_REQUESTED",
          data := { previousState := some .FOLLOW_UP_SELECTION } }).state
      = .FOLLOW_UP_SELECTION :=
  ⟨rfl, rfl,
   change_requested_sets_target { initialTriageContext with state := .CONFIRMATION }
     { previousState := some .FOLLOW_UP_SELECTION } .FOLLOW_UP_SELECTION rfl rfl⟩

/-- C6 (counterexample): recording the same symptom twice leaves two equal
entries in `symptoms` — the code appends with `push`, it does not
deduplicate. -/
theorem symptom_recorded_twice_duplicates :
    (processEvents { initialTriageContext with state := .SYMPTOM_ASSESSMENT }
        [{ type := "SYMPTOM_RECORDED", data := { symptom := some "burning_pain" } },
         { type := "SYMPTOM_RECORDED", data := { symptom := some "burning_pain" } }]).symptoms
      = [some "burning_pain", some "burning_pain"] := by
  decide

/-- C6 (amended): `symptoms` and `redFlags` are lists grown by appending:
SYMPTOM_RECORDED in SYMPTOM_ASSESSMENT appends its payload to `symptoms`
and RED_FLAG_DETECTED in RED_FLAG_CHECK appends its payload to `redFlags`,
duplicates included. -/
theorem symptom_and_redflag_append (ctx : TriageContext) (d : EventData) :
    (ctx.state = .SYMPTOM_ASSESSMENT →
      (processEvent ctx { type := "SYMPTOM_RECORDED", data := d }).symptoms
        = ctx.symptoms ++ [d.symptom]) ∧
    (ctx.state = .RED_FLAG_CHECK →
      (processEvent ctx { type := "RED_FLAG_DETECTED", data := d }).redFlags
        = ctx.redFlags ++ [d.redFlag]) := by
  constructor <;> intro h <;> simp [processEvent, h]

/-- Witness for the amended C6 at a concrete session and payloads. -/
theorem symptom_and_redflag_append_witness :
    ({ initialTriageContext with state := .SYMPTOM_ASSESSMENT } : TriageContext).state
      = .SYMPTOM_ASSESSMENT ∧
    (processEvent { initialTriageContext with state := .SYMPTOM_ASSESSMENT }
        { type := "SYMPTOM_RECORDED",
          data := { symptom := some "frequency" } }).symptoms
      = [] ++ [some "frequency"] :=
  ⟨rfl,
   (symptom_and_redflag_append { initialTriageContext with state := .SYMPTOM_ASSESSMENT }
       { symptom := some "frequency" }).1 rfl⟩

/-- C7: `processEvent` is a total function, and on every (state, event type)
pair outside the transition table it returns the context entirely
unchanged — state and all other fields. -/
theorem unlisted_event_noop (ctx : TriageContext) (event : TriageEvent)
    (h : listedTransition ctx.state event.type = false) :
    processEvent ctx event = ctx := by
  unfold processEvent
  cases hs : ctx.state <;>
    rw [hs] at h <;>
    simp only [listedTransition, Bool.or_eq_false_iff, beq_eq_false_iff_ne, ne_eq] at h <;>
    simp [h]

/-- Witness for C7: a CONFIRMED event in the INITIAL state is unlisted and
leaves the fresh session untouched. -/
theorem unlisted_event_noop_witness :
    listedTransition initialTriageContext.state "CONFIRMED" = false ∧
    processEvent initialTriageContext { type := "CONFIRMED" } = initialTriageContext :=
  ⟨by decide,
   unlisted_event_noop initialTriageContext { type := "CONFIRMED" } (by decide)⟩

/-- C8: `needsPharmacistReview` holds exactly when the state is ESCALATED,
or the recorded `redFlags` list is non-empty, or the state is
CONFIRMATION — for every session context, reachable ones included. -/
theorem needsPharmacistReview_iff (ctx : TriageContext) :
    needsPharmacistReview ctx = true ↔
      (ctx.state = .ESCALATED ∨ ctx.redFlags ≠ [] ∨ ctx.state = .CONFIRMATION) := by
  simp [needsPharmacistReview, List.length_pos, or_assoc]

/-- C9 (counterexample): INITIAL is not terminal (`isComplete` is false on a
fresh session), yet `getNextQuestion` falls through the `switch` default and
returns no prompt for it. -/
theorem getNextQuestion_initial_none :
    getNextQuestion initialTriageContext.state = none ∧
    isComplete initialTriageContext = false := by
  constructor <;> rfl

/-- C9 (amended): `getNextQuestion` is a function of the current state
alone; it returns no prompt exactly for INITIAL, ESCALATED and COMPLETED,
and exactly one canonical prompt for each of the six remaining states. -/
theorem getNextQuestion_none_iff (state : TriageState) :
    getNextQuestion state = none ↔
      (state = .INITIAL ∨ state = .ESCALATED ∨ state = .COMPLETED) := by
  cases state <;> simp [getNextQuestion]
